import Mathlib

/-!
Verification of the deploy-tool deployment pipeline.

The definitions below are a shallow embedding of the Python sources of the
deploy-tool CLI (`deploy_tool/cli.py`, `deploy_tool/github.py`,
`deploy_tool/aws.py`, `deploy_tool/config.py`).  External effects (git clone,
subprocess builds, S3 calls, the filesystem) are modelled as explicit inputs
of the functions; the control flow of each function mirrors the Python source
line by line.
-/

namespace DeployTool

/-!
Framework detection (`github.py`, `detect_framework`).

A manifest read has three outcomes in the source: the `package.json` file is
absent, it exists but `json.load` raises (malformed), or it parses to an
object with `dependencies` and `devDependencies` tables.  Membership of a
package name in the merged table is what the source tests, so the tables are
modelled as lists of declared package names.
-/

structure PackageJson where
  dependencies : List String
  devDependencies : List String
deriving DecidableEq, Repr

inductive ManifestRead where
  | absent
  | malformed
  | parsed (p : PackageJson)
deriving DecidableEq, Repr

/-- Merge of `dependencies` and `devDependencies`, as `{**deps, **devDeps}`
builds one lookup table; only key membership is ever queried. -/
def mergedDependencies (p : PackageJson) : List String :=
  p.dependencies ++ p.devDependencies

/-- Embedding of `detect_framework` (github.py lines 39-69): absent manifest
and parse failure both yield "unknown"; otherwise first match in the order
next, react + react-dom, angular/core. -/
def detect_framework (m : ManifestRead) : String :=
  match m with
  | .absent => "unknown"
  | .malformed => "unknown"
  | .parsed p =>
    let deps := mergedDependencies p
    if deps.contains "next" then "nextjs"
    else if deps.contains "react" && deps.contains "react-dom" then "react"
    else if deps.contains "@angular/core" then "angular"
    else "unknown"

/-!
Content type and cache policy (`cli.py` deploy, lines 179-218, the single-page
application upload branch).
-/

/-- Embedding of Python `str.endswith`: a suffix test on the character
sequence. -/
def endswith (s suf : String) : Bool :=
  List.isSuffixOf suf.data s.data

/-- Embedding of Python `str.split(sep)` for a one-character separator. -/
def splitOnChar (c : Char) : List Char → List (List Char)
  | [] => [[]]
  | x :: xs =>
    match splitOnChar c xs with
    | [] => [[x]]
    | h :: t => if x == c then [] :: h :: t else (x :: h) :: t

/-- Embedding of `file.split(".")[-1]` on a file name. -/
def lastExt (file : String) : String :=
  String.mk ((splitOnChar '.' file.data).getLastD [])

/-- Embedding of `file.split(".")[-1].lower()`. -/
def lastExtLower (file : String) : String :=
  String.mk ((lastExt file).data.map Char.toLower)

def noCacheDirective : String := "no-cache, no-store, must-revalidate"

def oneYearDirective : String := "max-age=31536000"

def oneDayDirective : String := "max-age=86400"

def imageExtensions : List String := [".png", ".jpg", ".jpeg", ".gif"]

def fontExtensions : List String := [".woff", ".woff2", ".eot", ".ttf", ".otf"]

/-- Embedding of the content-type / cache-control classification in the
deploy upload loop (cli.py lines 184-208).  The source initialises
`content_type = 'text/plain'` and `cache_control = 'max-age=86400'` and then
runs an if/elif chain; the `.json` and `.svg` branches set only the content
type, so those files keep the one-day default cache directive. -/
def contentTypeAndCache (file : String) : String × String :=
  if endswith file ".html" then ("text/html", noCacheDirective)
  else if endswith file ".css" then ("text/css", oneYearDirective)
  else if endswith file ".js" then ("application/javascript", oneYearDirective)
  else if endswith file ".json" then ("application/json", oneDayDirective)
  else if endswith file ".svg" then ("image/svg+xml", oneDayDirective)
  else if imageExtensions.any (fun e => endswith file e) then
    ("image/" ++ lastExtLower file, oneYearDirective)
  else if fontExtensions.any (fun e => endswith file e) then
    ("font/" ++ lastExtLower file, oneYearDirective)
  else ("text/plain", oneDayDirective)

/-- Embedding of the content-type chain of the non-SPA upload branch
(cli.py lines 226-235): default `text/html`, no cache directive is set, and
the image extension is not lower-cased there. -/
def standardContentType (file : String) : String :=
  if endswith file ".css" then "text/css"
  else if endswith file ".js" then "application/javascript"
  else if endswith file ".json" then "application/json"
  else if imageExtensions.any (fun e => endswith file e) then
    "image/" ++ lastExt file
  else "text/html"

/-!
The upload loop of `deploy` (cli.py lines 179-242).

`os.walk` of the resolved build directory yields, per file, a local basename
(used for classification) and a relative key (used as the S3 object key).
The upload capability is modelled as a predicate on keys: `true` means
`bucket.upload_file` returns, `false` means it raises, which aborts the loop
at that file (no try/except surrounds the loop).
-/

structure WalkFile where
  relativePath : String
  fileName : String
deriving DecidableEq, Repr

structure S3Object where
  bucket : String
  key : String
  contentType : String
  cacheControl : Option String
deriving DecidableEq, Repr

/-- The object put by one iteration of the SPA upload loop: the key is the
relative path, classification comes from the basename, and both a content
type and a cache directive are sent. -/
def recordOf (bucket : String) (f : WalkFile) : S3Object :=
  ⟨bucket, f.relativePath, (contentTypeAndCache f.fileName).1,
   some (contentTypeAndCache f.fileName).2⟩

/-- The object put by one iteration of the non-SPA upload loop: no cache
directive is sent there. -/
def standardRecordOf (bucket : String) (f : WalkFile) : S3Object :=
  ⟨bucket, f.relativePath, standardContentType f.fileName, none⟩

/-- Trace of one run of an upload loop: the objects put (in order), the keys
for which an upload was attempted, and the key whose upload raised, if any. -/
structure UploadRun where
  uploaded : List S3Object
  attempted : List String
  failed : Option String
deriving DecidableEq, Repr

/-- Embedding of the SPA upload loop (cli.py lines 179-218): files are
processed in walk order; a raising upload aborts the loop at that file. -/
def uploadWalk (bucket : String) (ok : String → Bool) : List WalkFile → UploadRun
  | [] => ⟨[], [], none⟩
  | f :: rest =>
    if ok f.relativePath then
      let r := uploadWalk bucket ok rest
      ⟨recordOf bucket f :: r.uploaded, f.relativePath :: r.attempted, r.failed⟩
    else ⟨[], [f.relativePath], some f.relativePath⟩

/-- Embedding of the non-SPA upload loop (cli.py lines 221-242). -/
def standardUploadWalk (bucket : String) (ok : String → Bool) : List WalkFile → UploadRun
  | [] => ⟨[], [], none⟩
  | f :: rest =>
    if ok f.relativePath then
      let r := standardUploadWalk bucket ok rest
      ⟨standardRecordOf bucket f :: r.uploaded, f.relativePath :: r.attempted, r.failed⟩
    else ⟨[], [f.relativePath], some f.relativePath⟩

/-!
Persisted deployment state (`config.py` `load_state`/`save_state` and the
resource records appended by `aws.py` `create_s3_bucket`).
-/

/-- One entry of the persisted `resources` list; the JSON keys are `type`
(here `rtype`, since `type` is reserved) and `name`. -/
structure ResourceRecord where
  rtype : String
  name : String
deriving DecidableEq, Repr

structure DeploymentState where
  resources : List ResourceRecord
deriving DecidableEq, Repr

/-- Embedding of `[r['name'] for r in state.get('resources', []) if r['type'] == 's3_bucket']`
(cli.py line 107). -/
def bucketNames (s : DeploymentState) : List String :=
  (s.resources.filter (fun r => r.rtype == "s3_bucket")).map (fun r => r.name)

/-- The bucket every upload targets: `buckets[0]` (cli.py line 113). -/
def firstBucket (s : DeploymentState) : Option String :=
  (bucketNames s).head?

/-- Embedding of the state mutation in `create_s3_bucket` (aws.py lines
133-138): one record is appended and the state saved. -/
def create_s3_bucket_record (s : DeploymentState) (bucketName : String) : DeploymentState :=
  ⟨s.resources ++ [⟨"s3_bucket", bucketName⟩]⟩

/-!
The deploy orchestrator (`cli.py` `deploy`, lines 88-261).

External outcomes are inputs: credential verification, the clone, the
manifest read, the build-directory resolution, the per-key upload capability
and the final `shutil.rmtree`.  The result records the outcome, the state as
persisted after the command (the function never writes the state file), the
objects uploaded, and which stages ran.
-/

inductive DeployOutcome where
  | credentialsFailed
  | noBucket
  | cloneFailed
  | unknownFramework
  | buildFailed
  | uploadException (failedPath : String)
  | success
deriving DecidableEq, Repr

structure DeployEnv where
  credentialsValid : Bool
  state : DeploymentState
  cloneSucceeds : Bool
  manifest : ManifestRead
  buildDirFound : Option String
  files : List WalkFile
  uploadOk : String → Bool
  cleanupSucceeds : Bool

structure DeployResult where
  outcome : DeployOutcome
  finalState : DeploymentState
  uploads : List S3Object
  cloneAttempted : Bool
  fetched : Bool
  cleanupAttempted : Bool
  cleanupWarned : Bool
deriving Repr

def spaFrameworks : List String := ["react", "angular", "nextjs"]

/-- Body of the `try` block of `deploy` (cli.py lines 120-249), entered only
after a successful clone: detect the framework, fail on "unknown", fail when
no build directory was resolved, then run the upload loop (the SPA branch for
react/angular/nextjs, the standard branch otherwise) against the chosen
bucket.  Returns the terminal outcome and the objects uploaded. -/
def deployAfterClone (env : DeployEnv) (bucketName : String) :
    DeployOutcome × List S3Object :=
  let framework := detect_framework env.manifest
  if framework == "unknown" then (.unknownFramework, [])
  else
    match env.buildDirFound with
    | none => (.buildFailed, [])
    | some _ =>
      let run :=
        if spaFrameworks.contains framework then
          uploadWalk bucketName env.uploadOk env.files
        else
          standardUploadWalk bucketName env.uploadOk env.files
      match run.failed with
      | some p => (.uploadException p, run.uploaded)
      | none => (.success, run.uploaded)

/-- Embedding of `deploy` (cli.py lines 88-261).  Stage order follows the
source: credential check, state load and bucket lookup, clone, then the
`try` body; the `finally` block removes the clone directory on every path
out of the `try`, turning a removal failure into a warning only.  No branch
writes the persisted state. -/
def deploy (env : DeployEnv) : DeployResult :=
  if env.credentialsValid then
    match bucketNames env.state with
    | [] => ⟨.noBucket, env.state, [], false, false, false, false⟩
    | bucketName :: _ =>
      if env.cloneSucceeds then
        let body := deployAfterClone env bucketName
        ⟨body.1, env.state, body.2, true, true, true, !env.cleanupSucceeds⟩
      else
        ⟨.cloneFailed, env.state, [], true, false, false, false⟩
  else
    ⟨.credentialsFailed, env.state, [], false, false, false, false⟩

/-- The same deploy environment with a cleanup that succeeds; used to state
that the deploy outcome does not depend on the cleanup result. -/
def withCleanupOk (env : DeployEnv) : DeployEnv :=
  ⟨env.credentialsValid, env.state, env.cloneSucceeds, env.manifest,
   env.buildDirFound, env.files, env.uploadOk, true⟩

/-!
Rollback (`cli.py` `rollback`, lines 264-298) together with the provider
calls its collaborators make: `verify_aws_credentials` (aws.py lines 45-63)
issues one STS `get_caller_identity` call whenever an STS client could be
built, and `delete_s3_bucket` issues the bucket deletion calls.
-/

inductive ProviderCall where
  | stsGetCallerIdentity
  | deleteBucket (name : String)
deriving DecidableEq, Repr

structure RollbackEnv where
  stsClientAvailable : Bool
  credentialsValid : Bool
  state : DeploymentState
deriving Repr

structure RollbackResult where
  messages : List String
  errMessages : List String
  providerCalls : List ProviderCall
  stateCleared : Bool
deriving DecidableEq, Repr

/-- Provider calls made by `verify_aws_credentials`: if no STS client can be
built there is no call; otherwise `get_caller_identity` is invoked (whether
or not it succeeds). -/
def verifyCalls (env : RollbackEnv) : List ProviderCall :=
  if env.stsClientAvailable then [ProviderCall.stsGetCallerIdentity] else []

/-- Embedding of `rollback` (cli.py lines 264-298): verify credentials, load
state, report and return when the resources list is empty, otherwise delete
each recorded bucket and unlink the state file. -/
def rollback (env : RollbackEnv) : RollbackResult :=
  let vcalls := verifyCalls env
  if env.stsClientAvailable && env.credentialsValid then
    match env.state.resources with
    | [] =>
      ⟨["Rolling back AWS infrastructure...", "No resources found to delete."],
       [], vcalls, false⟩
    | r :: rest =>
      ⟨["Rolling back AWS infrastructure...", "Rollback completed successfully."],
       [],
       vcalls ++ ((r :: rest).filter (fun x => x.rtype == "s3_bucket")).map
         (fun x => ProviderCall.deleteBucket x.name),
       true⟩
  else
    ⟨["Rolling back AWS infrastructure..."],
     ["AWS credentials verification failed", "Please configure AWS credentials first."],
     vcalls, false⟩

/-!
Repository fetch (`github.py` `clone_repository`, lines 12-37).
-/

/-- Embedding of `github_url.rstrip('/')`. -/
def stripTrailingSlashes (url : String) : String :=
  String.mk ((url.data.reverse.dropWhile (fun c => c == '/')).reverse)

/-- Embedding of the repo-name derivation (github.py lines 27-29): last
path segment of the slash-stripped URL, with a trailing ".git" removed. -/
def repoNameOf (url : String) : String :=
  let seg := String.mk ((splitOnChar '/' (stripTrailingSlashes url).data).getLastD [])
  if endswith seg ".git" then String.mk (seg.data.take (seg.data.length - 4)) else seg

structure CloneEnv where
  tempDir : String
  cloneOutcome : Except String Unit
  dirPresentAtFailure : Bool
deriving Repr

structure CloneRunResult where
  result : Option (String × String)
  dirRemains : Bool
  removedDir : Bool
  errMessages : List String
deriving DecidableEq, Repr

/-- Embedding of `clone_repository` (github.py lines 12-37): `mkdtemp`
creates `tempDir`; on clone success the pair `(temp_dir, repo_name)` is
returned with the directory handed to the caller; on any clone exception the
handler reports the message, removes the directory when it is present, and
returns the failure pair `(None, None)`. -/
def clone_repository (url : String) (env : CloneEnv) : CloneRunResult :=
  match env.cloneOutcome with
  | .ok _ => ⟨some (env.tempDir, repoNameOf url), true, false, []⟩
  | .error e =>
    ⟨none, false, env.dirPresentAtFailure, ["Error cloning repository: " ++ e]⟩

/-!
Build-artifact fallback search (`github.py` `build_project`, lines 172-211).

The filesystem queries the search makes are: does each of the four probe
directories exist (and is a directory); does it directly contain
`index.html`; which one-level-deep subdirectories does it have, in
`os.listdir` order, and which of those contain `index.html`; and does the
repository root directly contain `index.html`.
-/

structure SubdirInfo where
  name : String
  hasIndexHtml : Bool
deriving DecidableEq, Repr

structure DirInfo where
  present : Bool
  hasIndexHtml : Bool
  subdirs : List SubdirInfo
deriving DecidableEq, Repr

structure FallbackFS where
  build : DirInfo
  dist : DirInfo
  dotNext : DirInfo
  publicDir : DirInfo
  rootHasIndexHtml : Bool
deriving DecidableEq, Repr

/-- The probe list `possible_dirs` (github.py lines 177-182), in source
order. -/
def possibleDirs (fs : FallbackFS) : List (String × DirInfo) :=
  [("build", fs.build), ("dist", fs.dist), (".next", fs.dotNext), ("public", fs.publicDir)]

/-- Embedding of the probe loop (github.py lines 184-211): the first probe
directory that exists decides the result; inside it, `index.html` at top
level wins, then the first subdirectory containing `index.html`, then the
directory itself; after the loop, the repository root wins when it directly
contains `index.html`; otherwise the search fails. -/
def searchDirLoop (repoPath : String) : List (String × DirInfo) → Bool → Option String
  | [], rootHas => if rootHas then some repoPath else none
  | (name, d) :: rest, rootHas =>
    if d.present then
      if d.hasIndexHtml then some (repoPath ++ "/" ++ name)
      else
        match d.subdirs.find? (fun s => s.hasIndexHtml) with
        | some s => some (repoPath ++ "/" ++ name ++ "/" ++ s.name)
        | none => some (repoPath ++ "/" ++ name)
    else searchDirLoop repoPath rest rootHas

/-- Location step of `build_project` (github.py lines 172-213): the expected
framework directory when it exists, the fallback search otherwise; `none` is
the `BuildError` outcome ("No suitable build directory found."). -/
def build_project_locate (repoPath : String) (expectedDir : String)
    (expectedPresent : Bool) (fs : FallbackFS) : Option String :=
  if expectedPresent then some expectedDir
  else searchDirLoop repoPath (possibleDirs fs) fs.rootHasIndexHtml

/-- Modelled from the claim's words (C9 as stated): for the first probe
directory that exists, a one-level-deep subdirectory containing `index.html`
is preferred over that directory itself, which is returned otherwise. -/
def searchDirClaim (repoPath : String) : List (String × DirInfo) → Bool → Option String
  | [], rootHas => if rootHas then some repoPath else none
  | (name, d) :: rest, rootHas =>
    if d.present then
      match d.subdirs.find? (fun s => s.hasIndexHtml) with
      | some s => some (repoPath ++ "/" ++ name ++ "/" ++ s.name)
      | none => some (repoPath ++ "/" ++ name)
    else searchDirClaim repoPath rest rootHas

/-!
Concrete environments used to evaluate the model on explicit inputs.
-/

/-- A manifest declaring react and react-dom (react-dom among the
development dependencies). -/
def manifestReact : ManifestRead := .parsed ⟨["react"], ["react-dom"]⟩

/-- A persisted state holding the single bucket record created by `init`. -/
def stateOneBucket : DeploymentState := ⟨[⟨"s3_bucket", "static-site-1a2b3c4d"⟩]⟩

/-- A deploy run in which every external step succeeds. -/
def deployEnvHappy : DeployEnv :=
  ⟨true, stateOneBucket, true, manifestReact, some "build",
   [⟨"index.html", "index.html"⟩], fun _ => true, true⟩

/-- A deploy run against a state with no bucket record. -/
def deployEnvNoBucket : DeployEnv :=
  ⟨true, ⟨[]⟩, true, manifestReact, some "build",
   [⟨"index.html", "index.html"⟩], fun _ => true, true⟩

/-- A rollback run with working credentials and an empty persisted state. -/
def rollbackEnvEmpty : RollbackEnv := ⟨true, true, ⟨[]⟩⟩

/-- An upload capability that raises exactly on the key "app.js". -/
def uploadOkW : String → Bool := fun k => !(k == "app.js")

/-- A clone attempt whose git clone raises. -/
def cloneEnvW : CloneEnv :=
  ⟨"/tmp/deploy-tool-a1b2", .error "fatal: repository not found", true⟩

/-- A fallback filesystem in which `build` exists, directly contains
index.html, and also has a subdirectory `sub` containing index.html. -/
def fsBuildBoth : FallbackFS :=
  ⟨⟨true, true, [⟨"sub", true⟩]⟩, ⟨false, false, []⟩, ⟨false, false, []⟩,
   ⟨false, false, []⟩, false⟩

/-!
Helper lemmas shared by the claim theorems.
-/

theorem uploadWalk_bucket_eq (bucket : String) (ok : String → Bool)
    (files : List WalkFile) :
    ∀ o ∈ (uploadWalk bucket ok files).uploaded, o.bucket = bucket := by
  induction files with
  | nil => simp [uploadWalk]
  | cons f rest ih =>
    intro o ho
    cases h : ok f.relativePath with
    | true =>
      simp [uploadWalk, h] at ho
      rcases ho with ho | ho
      · rw [ho]; rfl
      · exact ih o ho
    | false => simp [uploadWalk, h] at ho

theorem standardUploadWalk_bucket_eq (bucket : String) (ok : String → Bool)
    (files : List WalkFile) :
    ∀ o ∈ (standardUploadWalk bucket ok files).uploaded, o.bucket = bucket := by
  induction files with
  | nil => simp [standardUploadWalk]
  | cons f rest ih =>
    intro o ho
    cases h : ok f.relativePath with
    | true =>
      simp [standardUploadWalk, h] at ho
      rcases ho with ho | ho
      · rw [ho]; rfl
      · exact ih o ho
    | false => simp [standardUploadWalk, h] at ho

theorem deployAfterClone_uploads (env : DeployEnv) (b : String) :
    (deployAfterClone env b).2 = [] ∨
    (deployAfterClone env b).2 = (uploadWalk b env.uploadOk env.files).uploaded ∨
    (deployAfterClone env b).2 = (standardUploadWalk b env.uploadOk env.files).uploaded := by
  unfold deployAfterClone
  dsimp only
  repeat' split
  all_goals simp

theorem deployAfterClone_cleanup_invariant (env : DeployEnv) (b : String) :
    deployAfterClone (withCleanupOk env) b = deployAfterClone env b := rfl

theorem withCleanupOk_credentialsValid (env : DeployEnv) :
    (withCleanupOk env).credentialsValid = env.credentialsValid := rfl

theorem withCleanupOk_state (env : DeployEnv) :
    (withCleanupOk env).state = env.state := rfl

theorem withCleanupOk_cloneSucceeds (env : DeployEnv) :
    (withCleanupOk env).cloneSucceeds = env.cloneSucceeds := rfl

theorem withCleanupOk_cleanupSucceeds (env : DeployEnv) :
    (withCleanupOk env).cleanupSucceeds = true := rfl

/-!
Claim theorems.
-/

/-- Claim C4: detection classifies by first match in the fixed order — a
Next.js marker yields "nextjs"; otherwise react together with react-dom
yields "react"; otherwise an Angular core dependency yields "angular";
otherwise "unknown".  The first conjunct places no condition on the React
markers, so Next.js has priority over React when both are present. -/
theorem c4_detect_first_match_order (p : PackageJson) :
    ((mergedDependencies p).contains "next" = true →
      detect_framework (.parsed p) = "nextjs") ∧
    ((mergedDependencies p).contains "next" = false →
      (mergedDependencies p).contains "react" = true →
      (mergedDependencies p).contains "react-dom" = true →
      detect_framework (.parsed p) = "react") ∧
    ((mergedDependencies p).contains "next" = false →
      ((mergedDependencies p).contains "react" &&
        (mergedDependencies p).contains "react-dom") = false →
      (mergedDependencies p).contains "@angular/core" = true →
      detect_framework (.parsed p) = "angular") ∧
    ((mergedDependencies p).contains "next" = false →
      ((mergedDependencies p).contains "react" &&
        (mergedDependencies p).contains "react-dom") = false →
      (mergedDependencies p).contains "@angular/core" = false →
      detect_framework (.parsed p) = "unknown") := by
  refine ⟨fun h1 => ?_, fun h1 h2 h3 => ?_, fun h1 h2 h3 => ?_, fun h1 h2 h3 => ?_⟩
  · simp only [detect_framework, h1]; rfl
  · simp only [detect_framework, h1, h2, h3]; rfl
  · simp only [detect_framework, h1, h2, h3]; rfl
  · simp only [detect_framework, h1, h2, h3]; rfl

/-- Witness for C4 at a manifest declaring next, react and react-dom
together: detection returns "nextjs". -/
theorem c4_witness :
    (mergedDependencies ⟨["next", "react"], ["react-dom"]⟩).contains "next" = true ∧
    detect_framework (.parsed ⟨["next", "react"], ["react-dom"]⟩) = "nextjs" :=
  ⟨by decide, (c4_detect_first_match_order ⟨["next", "react"], ["react-dom"]⟩).1 (by decide)⟩

/-- Claim C5: an absent manifest and a malformed manifest both yield
"unknown", and detection never fails — it is a total function whose result is
always one of the four framework names. -/
theorem c5_detect_absent_or_malformed :
    detect_framework .absent = "unknown" ∧
    detect_framework .malformed = "unknown" ∧
    ∀ m : ManifestRead,
      ["react", "nextjs", "angular", "unknown"].contains (detect_framework m) = true := by
  refine ⟨rfl, rfl, fun m => ?_⟩
  cases m with
  | absent => decide
  | malformed => decide
  | parsed p =>
    cases h1 : (mergedDependencies p).contains "next" <;>
      cases h2 : (mergedDependencies p).contains "react" <;>
        cases h3 : (mergedDependencies p).contains "react-dom" <;>
          cases h4 : (mergedDependencies p).contains "@angular/core" <;>
            (simp only [detect_framework, h1, h2, h3, h4]; rfl)

/-- Claim C3 counterexample: "data.json" is not an HTML file, yet it is
uploaded with the one-day default cache directive (max-age=86400), not the
long-lived one-year directive (max-age=31536000) that the claim promises for
every non-HTML file. -/
theorem c3_counterexample :
    endswith "data.json" ".html" = false ∧
    (contentTypeAndCache "data.json").1 = "application/json" ∧
    (contentTypeAndCache "data.json").2 ≠ oneYearDirective ∧
    (contentTypeAndCache "data.json").2 = oneDayDirective := by decide

/-- Claim C3 amended: content types come from the fixed first-match
extension table as stated; .html files carry the non-caching directive and
only they do; .css, .js, image and font files carry the one-year directive;
.json, .svg, and files matching no table entry keep the one-day default
directive. -/
theorem c3_content_type_and_cache (f : String) :
    (endswith f ".html" = true →
      contentTypeAndCache f = ("text/html", noCacheDirective)) ∧
    (endswith f ".html" = false → endswith f ".css" = true →
      contentTypeAndCache f = ("text/css", oneYearDirective)) ∧
    (endswith f ".html" = false → endswith f ".css" = false →
      endswith f ".js" = true →
      contentTypeAndCache f = ("application/javascript", oneYearDirective)) ∧
    (endswith f ".html" = false → endswith f ".css" = false →
      endswith f ".js" = false → endswith f ".json" = true →
      contentTypeAndCache f = ("application/json", oneDayDirective)) ∧
    (endswith f ".html" = false → endswith f ".css" = false →
      endswith f ".js" = false → endswith f ".json" = false →
      endswith f ".svg" = true →
      contentTypeAndCache f = ("image/svg+xml", oneDayDirective)) ∧
    (endswith f ".html" = false → endswith f ".css" = false →
      endswith f ".js" = false → endswith f ".json" = false →
      endswith f ".svg" = false →
      imageExtensions.any (fun e => endswith f e) = true →
      contentTypeAndCache f = ("image/" ++ lastExtLower f, oneYearDirective)) ∧
    (endswith f ".html" = false → endswith f ".css" = false →
      endswith f ".js" = false → endswith f ".json" = false →
      endswith f ".svg" = false →
      imageExtensions.any (fun e => endswith f e) = false →
      fontExtensions.any (fun e => endswith f e) = true →
      contentTypeAndCache f = ("font/" ++ lastExtLower f, oneYearDirective)) ∧
    (endswith f ".html" = false → endswith f ".css" = false →
      endswith f ".js" = false → endswith f ".json" = false →
      endswith f ".svg" = false →
      imageExtensions.any (fun e => endswith f e) = false →
      fontExtensions.any (fun e => endswith f e) = false →
      contentTypeAndCache f = ("text/plain", oneDayDirective)) ∧
    ((contentTypeAndCache f).2 = noCacheDirective ↔ endswith f ".html" = true) := by
  refine ⟨fun h1 => ?_, fun h1 h2 => ?_, fun h1 h2 h3 => ?_, fun h1 h2 h3 h4 => ?_,
    fun h1 h2 h3 h4 h5 => ?_, fun h1 h2 h3 h4 h5 h6 => ?_,
    fun h1 h2 h3 h4 h5 h6 h7 => ?_, fun h1 h2 h3 h4 h5 h6 h7 => ?_, ?_⟩
  · simp only [contentTypeAndCache, h1]; rfl
  · simp only [contentTypeAndCache, h1, h2]; rfl
  · simp only [contentTypeAndCache, h1, h2, h3]; rfl
  · simp only [contentTypeAndCache, h1, h2, h3, h4]; rfl
  · simp only [contentTypeAndCache, h1, h2, h3, h4, h5]; rfl
  · simp only [contentTypeAndCache, h1, h2, h3, h4, h5, h6]; rfl
  · simp only [contentTypeAndCache, h1, h2, h3, h4, h5, h6, h7]; rfl
  · simp only [contentTypeAndCache, h1, h2, h3, h4, h5, h6, h7]; rfl
  · cases h1 : endswith f ".html" with
    | true => simp only [contentTypeAndCache, h1]; simp [noCacheDirective]
    | false =>
      simp only [contentTypeAndCache, h1]
      split_ifs <;>
        simp_all [noCacheDirective, oneYearDirective, oneDayDirective]

/-- Witness for C3 at "index.html": the HTML content type together with the
non-caching directive. -/
theorem c3_witness :
    endswith "index.html" ".html" = true ∧
    contentTypeAndCache "index.html" = ("text/html", noCacheDirective) :=
  ⟨by decide, (c3_content_type_and_cache "index.html").1 (by decide)⟩

/-- Claim C6: when the clone raises, the handler removes the partially
created ephemeral directory when it is present, no directory remains on
disk, and the operation fails (no path is returned) carrying the underlying
message. -/
theorem c6_clone_failure_cleanup (url : String) (env : CloneEnv) (e : String)
    (h : env.cloneOutcome = .error e) :
    (clone_repository url env).result = none ∧
    (clone_repository url env).dirRemains = false ∧
    (clone_repository url env).removedDir = env.dirPresentAtFailure ∧
    (clone_repository url env).errMessages = ["Error cloning repository: " ++ e] := by
  simp [clone_repository, h]

/-- Witness for C6 at an unreachable URL: the clone fails and leaves no
directory behind. -/
theorem c6_witness :
    cloneEnvW.cloneOutcome = Except.error "fatal: repository not found" ∧
    (clone_repository "https://github.com/u/r.git" cloneEnvW).result = none ∧
    (clone_repository "https://github.com/u/r.git" cloneEnvW).dirRemains = false :=
  ⟨rfl, (c6_clone_failure_cleanup "https://github.com/u/r.git" cloneEnvW
      "fatal: repository not found" rfl).1,
    (c6_clone_failure_cleanup "https://github.com/u/r.git" cloneEnvW
      "fatal: repository not found" rfl).2.1⟩

/-- Claim C2 counterexample: with valid credentials and an empty persisted
state, rollback reports nothing to do — yet its provider-call trace is not
empty, because credential verification already issued an STS
get-caller-identity call to the provider before the state was loaded. -/
theorem c2_counterexample :
    (rollback rollbackEnvEmpty).messages.contains "No resources found to delete." = true ∧
    (rollback rollbackEnvEmpty).providerCalls ≠ [] := by decide

/-- Claim C2 amended: on an empty loaded state, rollback reports nothing to
do, is not an error, deletes nothing and clears nothing; the only provider
call of the whole command is the single STS get-caller-identity call of the
credential verification that precedes the state load. -/
theorem c2_rollback_empty_state (env : RollbackEnv)
    (h1 : env.stsClientAvailable = true) (h2 : env.credentialsValid = true)
    (h3 : env.state.resources = []) :
    (rollback env).messages.contains "No resources found to delete." = true ∧
    (rollback env).errMessages = [] ∧
    (rollback env).providerCalls = [ProviderCall.stsGetCallerIdentity] ∧
    (∀ n, ProviderCall.deleteBucket n ∉ (rollback env).providerCalls) ∧
    (rollback env).stateCleared = false := by
  simp [rollback, verifyCalls, h1, h2, h3]

/-- Witness for C2 at the concrete empty-state environment. -/
theorem c2_witness :
    rollbackEnvEmpty.stsClientAvailable = true ∧
    rollbackEnvEmpty.state.resources = [] ∧
    (rollback rollbackEnvEmpty).providerCalls = [ProviderCall.stsGetCallerIdentity] ∧
    (rollback rollbackEnvEmpty).stateCleared = false :=
  ⟨rfl, rfl, (c2_rollback_empty_state rollbackEnvEmpty rfl rfl rfl).2.2.1,
    (c2_rollback_empty_state rollbackEnvEmpty rfl rfl rfl).2.2.2.2⟩

/-- Claim C7: when the upload of one file raises after all files before it
uploaded, the loop aborts at exactly that file — the failure carries its
relative path, that path is the last attempted one, and the objects already
uploaded are exactly those of the earlier files, left in place; nothing after
it is attempted. -/
theorem c7_upload_abort (bucket : String) (ok : String → Bool)
    (pre : List WalkFile) (f : WalkFile) (post : List WalkFile)
    (hpre : ∀ g ∈ pre, ok g.relativePath = true)
    (hf : ok f.relativePath = false) :
    uploadWalk bucket ok (pre ++ f :: post) =
      ⟨pre.map (recordOf bucket),
       pre.map (fun g => g.relativePath) ++ [f.relativePath],
       some f.relativePath⟩ := by
  induction pre with
  | nil => simp [uploadWalk, hf]
  | cons g gs ih =>
    have hg : ok g.relativePath = true := hpre g (by simp)
    have ih2 := ih (fun x hx => hpre x (by simp [hx]))
    simp [uploadWalk, hg, ih2]

/-- Witness for C7: three files in walk order, the second upload raises; the
run uploads only the first file, attempts exactly the first two keys, and
fails naming "app.js". -/
theorem c7_witness :
    uploadOkW "index.html" = true ∧ uploadOkW "app.js" = false ∧
    uploadWalk "site-bucket" uploadOkW
        ([⟨"index.html", "index.html"⟩] ++ ⟨"app.js", "app.js"⟩ :: [⟨"style.css", "style.css"⟩]) =
      ⟨[recordOf "site-bucket" ⟨"index.html", "index.html"⟩],
       ["index.html", "app.js"], some "app.js"⟩ := by
  refine ⟨by decide, by decide, ?_⟩
  have h := c7_upload_abort "site-bucket" uploadOkW [⟨"index.html", "index.html"⟩]
    ⟨"app.js", "app.js"⟩ [⟨"style.css", "style.css"⟩] (by decide) (by decide)
  simpa using h

/-- Claim C9 counterexample: `build` is the first probe directory and
exists, directly contains index.html, and also has a one-level-deep
subdirectory containing index.html; the code returns the directory itself,
while the claim's stated preference picks the subdirectory. -/
theorem c9_counterexample :
    fsBuildBoth.build.present = true ∧
    fsBuildBoth.build.hasIndexHtml = true ∧
    fsBuildBoth.build.subdirs.any (fun s => s.hasIndexHtml) = true ∧
    build_project_locate "/repo" "/repo/out" false fsBuildBoth = some "/repo/build" ∧
    searchDirClaim "/repo" (possibleDirs fsBuildBoth) fsBuildBoth.rootHasIndexHtml =
      some "/repo/build/sub" := by decide

theorem searchDirLoop_eq_find (repoPath : String) (l : List (String × DirInfo))
    (rootHas : Bool) :
    searchDirLoop repoPath l rootHas =
      (match l.find? (fun nd => nd.2.present) with
       | some nd =>
         if nd.2.hasIndexHtml then some (repoPath ++ "/" ++ nd.1)
         else
           match nd.2.subdirs.find? (fun s => s.hasIndexHtml) with
           | some s => some (repoPath ++ "/" ++ nd.1 ++ "/" ++ s.name)
           | none => some (repoPath ++ "/" ++ nd.1)
       | none => if rootHas then some repoPath else none) := by
  induction l with
  | nil => rfl
  | cons nd rest ih =>
    obtain ⟨name, d⟩ := nd
    cases hp : d.present with
    | true => simp [searchDirLoop, List.find?_cons, hp]
    | false => simp [searchDirLoop, List.find?_cons, hp, ih]

/-- Claim C9 amended: when the expected build directory is absent, the
result is decided by the first of build, dist, .next, public that exists —
preferring that directory itself when it directly contains index.html, then
its first one-level-deep subdirectory containing index.html, then the
directory anyway — and, when none of the four exists, by the repository root
when the root directly contains index.html; otherwise the build fails
(`none`, the BuildError outcome). -/
theorem c9_fallback_search (repoPath expectedDir : String) (fs : FallbackFS) :
    build_project_locate repoPath expectedDir false fs =
      (match (possibleDirs fs).find? (fun nd => nd.2.present) with
       | some nd =>
         if nd.2.hasIndexHtml then some (repoPath ++ "/" ++ nd.1)
         else
           match nd.2.subdirs.find? (fun s => s.hasIndexHtml) with
           | some s => some (repoPath ++ "/" ++ nd.1 ++ "/" ++ s.name)
           | none => some (repoPath ++ "/" ++ nd.1)
       | none => if fs.rootHasIndexHtml then some repoPath else none) := by
  simpa [build_project_locate] using
    searchDirLoop_eq_find repoPath (possibleDirs fs) fs.rootHasIndexHtml

/-- Claim C1 counterexample: a fully successful deploy (valid credentials,
one recorded bucket, clone, react detection, build found, one upload, clean
cleanup) leaves the persisted state exactly as it was — no new bucket record
is appended, contradicting "exactly one new bucket ResourceRecord
appended". -/
theorem c1_counterexample :
    (deploy deployEnvHappy).outcome = DeployOutcome.success ∧
    (deploy deployEnvHappy).uploads.length = 1 ∧
    (deploy deployEnvHappy).finalState = stateOneBucket ∧
    ¬ ((deploy deployEnvHappy).finalState.resources.length =
        stateOneBucket.resources.length + 1) := by decide

/-- Claim C1 amended: no deploy — successful or failed at any stage — ever
changes the persisted DeploymentState; the bucket record that deploy uses is
the one appended by init via create_s3_bucket, and a deploy that fails
before completion likewise leaves the persisted infrastructure state
unchanged. -/
theorem c1_deploy_state_unchanged (env : DeployEnv) :
    (deploy env).finalState = env.state := by
  unfold deploy
  repeat' split
  all_goals rfl

/-- Claim C8: once the clone has succeeded, cleanup of the ephemeral clone
directory is attempted on every exit path of the remaining pipeline, a
cleanup failure surfaces only as a warning, and the deploy outcome is the
same as it would be with a succeeding cleanup. -/
theorem c8_cleanup_always_runs (env : DeployEnv)
    (h : (deploy env).fetched = true) :
    (deploy env).cleanupAttempted = true ∧
    ((deploy env).cleanupWarned = true ↔ env.cleanupSucceeds = false) ∧
    (deploy env).outcome = (deploy (withCleanupOk env)).outcome := by
  cases hcv : env.credentialsValid with
  | false => rw [deploy] at h; simp [hcv] at h
  | true =>
    cases hbn : bucketNames env.state with
    | nil => rw [deploy] at h; simp [hcv, hbn] at h
    | cons b rest =>
      cases hcs : env.cloneSucceeds with
      | false => rw [deploy] at h; simp [hcv, hbn, hcs] at h
      | true =>
        have e1 : deploy env =
            ⟨(deployAfterClone env b).1, env.state, (deployAfterClone env b).2,
             true, true, true, !env.cleanupSucceeds⟩ := by
          simp [deploy, hcv, hbn, hcs]
        have e2 : deploy (withCleanupOk env) =
            ⟨(deployAfterClone env b).1, env.state, (deployAfterClone env b).2,
             true, true, true, false⟩ := by
          simp [deploy, withCleanupOk_credentialsValid, withCleanupOk_state,
            withCleanupOk_cloneSucceeds, withCleanupOk_cleanupSucceeds,
            deployAfterClone_cleanup_invariant, hcv, hbn, hcs]
        rw [e1, e2]
        simp

/-- Witness for C8 at the all-succeeding deploy environment. -/
theorem c8_witness :
    (deploy deployEnvHappy).fetched = true ∧
    (deploy deployEnvHappy).cleanupAttempted = true ∧
    (deploy deployEnvHappy).outcome = (deploy (withCleanupOk deployEnvHappy)).outcome :=
  ⟨by decide, (c8_cleanup_always_runs deployEnvHappy (by decide)).1,
    (c8_cleanup_always_runs deployEnvHappy (by decide)).2.2⟩

/-- Claim C10: with valid credentials, a state without any bucket record
makes deploy abort with the no-bucket outcome before any clone is attempted,
and when bucket records exist every uploaded object targets the first
recorded bucket. -/
theorem c10_first_bucket (env : DeployEnv)
    (hcred : env.credentialsValid = true) :
    (firstBucket env.state = none →
      (deploy env).outcome = DeployOutcome.noBucket ∧
      (deploy env).cloneAttempted = false) ∧
    (∀ b, firstBucket env.state = some b →
      ∀ o ∈ (deploy env).uploads, o.bucket = b) := by
  constructor
  · intro hnone
    have hbn : bucketNames env.state = [] := by
      cases hx : bucketNames env.state with
      | nil => rfl
      | cons x xs => rw [firstBucket, hx] at hnone; simp at hnone
    simp [deploy, hcred, hbn]
  · intro b hb o ho
    cases hbn : bucketNames env.state with
    | nil => rw [firstBucket, hbn] at hb; simp at hb
    | cons x xs =>
      have hxb : x = b := by
        rw [firstBucket, hbn] at hb
        simpa using hb
      subst hxb
      cases hcs : env.cloneSucceeds with
      | false => simp [deploy, hcred, hbn, hcs] at ho
      | true =>
        simp only [deploy, hcred, hbn, hcs, if_true] at ho
        rcases deployAfterClone_uploads env x with hcase | hcase | hcase <;>
          rw [hcase] at ho
        · simp at ho
        · exact uploadWalk_bucket_eq x env.uploadOk env.files o ho
        · exact standardUploadWalk_bucket_eq x env.uploadOk env.files o ho

/-- Witness for C10 at a state with no bucket record: deploy reports the
missing bucket and never attempts the clone. -/
theorem c10_witness :
    deployEnvNoBucket.credentialsValid = true ∧
    firstBucket deployEnvNoBucket.state = none ∧
    (deploy deployEnvNoBucket).outcome = DeployOutcome.noBucket ∧
    (deploy deployEnvNoBucket).cloneAttempted = false :=
  ⟨rfl, rfl, ((c10_first_bucket deployEnvNoBucket rfl).1 rfl).1,
    ((c10_first_bucket deployEnvNoBucket rfl).1 rfl).2⟩

end DeployTool
